import Mathlib

/-!
Verification of the EV fleet telemetry pipeline (src/Code.py).

The source is a small Python workflow; the parts with data semantics are:
- `make_operational_decisions` (DecisionEngine): threshold classification of a snapshot;
- `remote_control` (RemoteControlDispatcher): action-name lookup with a sentinel default;
- `continuous_improvement` (FleetAggregator): batch mean, low-battery filter, suggestion;
- `calculate_roi` (ROICalculator): the ROI percentage formula.

Python floats are modelled as rationals, Python ints as `Int`.  The pandas
`mean()` of an empty column is NaN; NaN is modelled as `none` in an
`Option ℚ`.  Python's division raises `ZeroDivisionError` exactly when the
divisor is zero, which is modelled with `Except`.
-/

namespace EVFleet

/-- The `charge_status` field ranges over the two-value enumeration
`charging` / `discharging` (src/Code.py line 21). -/
inductive ChargeStatus where
  | charging
  | discharging
deriving DecidableEq

/-- One telemetry snapshot, the record produced by `collect_ev_data`
(src/Code.py lines 14-23): vehicle id, battery percentage (int), location
(lat/long pair), speed, temperature, charge status, timestamp. -/
structure TelemetrySnapshot where
  ev_id : Int
  battery_level : Int
  location : ℚ × ℚ
  speed : ℚ
  temperature : ℚ
  charge_status : ChargeStatus
  timestamp : ℚ
deriving DecidableEq

/-- The three mutually exclusive outcomes of `make_operational_decisions`
(the three print branches in src/Code.py lines 78-85). -/
inductive Decision where
  | route_to_charging
  | reduce_speed
  | normal_operation
deriving DecidableEq

/-- `make_operational_decisions` (src/Code.py lines 77-85): battery below 20
routes to charging; otherwise speed above 70 reduces speed; otherwise normal
operation.  The printed message is presentation; the decision taken in each
branch is the value modelled here. -/
def make_operational_decisions (ev_data : TelemetrySnapshot) : Decision :=
  if ev_data.battery_level < 20 then
    Decision.route_to_charging
  else if ev_data.speed > 70 then
    Decision.reduce_speed
  else
    Decision.normal_operation

/-- `remote_control` (src/Code.py lines 97-104): a dictionary from action
names to templated descriptions, read with `.get(action, "Invalid action")`. -/
def remote_control (ev_id : Int) (action : String) : String :=
  let actions : List (String × String) :=
    [ ("start_charging", "EV " ++ toString ev_id ++ " started charging."),
      ("stop_charging", "EV " ++ toString ev_id ++ " stopped charging."),
      ("reduce_speed", "EV " ++ toString ev_id ++ " speed reduced.") ]
  (actions.lookup action).getD "Invalid action"

/-- The fleet-level result computed by `continuous_improvement`: the mean
battery level (`none` models the NaN that pandas produces on an empty
column), the ids of the low-battery vehicles, and the optional suggestion
line. -/
structure FleetSummary where
  avg_battery : Option ℚ
  low_battery_ev : List Int
  suggestion : Option String
deriving DecidableEq

/-- `continuous_improvement` (src/Code.py lines 115-126):
`df['battery_level'].mean()` (NaN, i.e. `none`, on an empty batch),
`df[df['battery_level'] < 20]['ev_id'].tolist()`, and the suggestion printed
when the low-battery selection is non-empty. -/
def continuous_improvement (df : List TelemetrySnapshot) : FleetSummary :=
  let avg_battery : Option ℚ :=
    if df.length = 0 then none
    else some ((df.map (fun s => (s.battery_level : ℚ))).sum / (df.length : ℚ))
  let low_battery_ev := df.filter (fun s => s.battery_level < 20)
  let suggestion : Option String :=
    if 0 < low_battery_ev.length then
      some "Increase charging frequency for low battery EVs."
    else none
  { avg_battery := avg_battery
    low_battery_ev := low_battery_ev.map (fun s => s.ev_id)
    suggestion := suggestion }

/-- The error raised by Python division when the divisor is zero. -/
inductive PyArithError where
  | zeroDivisionError
deriving DecidableEq

/-- `calculate_roi` (src/Code.py lines 136-141):
`savings = fuel_savings - charging_costs`, `net_profit = savings -
maintenance_costs`, `roi = (net_profit / initial_investment) * 100`.
Python raises `ZeroDivisionError` exactly when `initial_investment` is
zero, modelled with `Except`. -/
def calculate_roi (initial_investment maintenance_costs fuel_savings charging_costs : ℚ) :
    Except PyArithError ℚ :=
  let savings := fuel_savings - charging_costs
  let net_profit := savings - maintenance_costs
  if initial_investment = 0 then
    Except.error PyArithError.zeroDivisionError
  else
    Except.ok (net_profit / initial_investment * 100)

/-- Spec-side definition for the low-battery set, following the spec's words:
"all vehicle identifiers whose battery level < 20, preserving the relative
order in which they appeared in the input batch". -/
def spec_low_battery_set (batch : List TelemetrySnapshot) : List Int :=
  batch.filterMap (fun s => if s.battery_level < 20 then some s.ev_id else none)

/-- A snapshot with the given id, battery level and speed; the remaining
fields take fixed representative values. -/
def mkSnap (id b : Int) (sp : ℚ) : TelemetrySnapshot :=
  { ev_id := id
    battery_level := b
    location := (34, -118)
    speed := sp
    temperature := 20
    charge_status := ChargeStatus.discharging
    timestamp := 0 }

/-- C1: the claim states that on the empty batch `continuous_improvement`
fails with an EmptyBatch error and never silently produces a NaN mean.  The
code does the opposite: it returns a full summary whose mean battery level
is the NaN of an empty pandas mean (modelled as `none`), with an empty
low-battery list and no suggestion.  This theorem evaluates the code at the
failing input. -/
theorem C1_empty_batch_yields_nan_summary :
    continuous_improvement [] =
      { avg_battery := none, low_battery_ev := [], suggestion := none } := by
  rfl

/-- C2: `calculate_roi` fails with a `ZeroDivisionError` exactly when
`initial_investment` is zero, for every value of the other three inputs; for
nonzero `initial_investment` it never raises. -/
theorem C2_roi_zero_division_iff :
    ∀ i m f c : ℚ,
      (∃ e, calculate_roi i m f c = Except.error e) ↔ i = 0 := by
  intro i m f c
  constructor
  · rintro ⟨e, he⟩
    by_contra hne
    simp only [calculate_roi, if_neg hne] at he
    exact Except.noConfusion he
  · rintro rfl
    exact ⟨PyArithError.zeroDivisionError, by rfl⟩

/-- C2 witness: at investment 0 the error is raised; at investment 5 no
error is possible. -/
theorem C2_roi_zero_division_iff_witness :
    calculate_roi 0 1 2 3 = Except.error PyArithError.zeroDivisionError ∧
    ¬ ∃ e, calculate_roi 5 1 2 3 = Except.error e := by
  constructor
  · obtain ⟨e, he⟩ := (C2_roi_zero_division_iff 0 1 2 3).mpr rfl
    cases e
    exact he
  · intro hx
    have h5 : (5 : ℚ) = 0 := (C2_roi_zero_division_iff 5 1 2 3).mp hx
    norm_num at h5

/-- C4: both thresholds are strict: battery exactly 20 (speed 0) is normal
operation while battery 19 routes to charging; speed exactly 70 (battery
100) is normal operation while speed 71 reduces speed. -/
theorem C4_strict_boundaries :
    make_operational_decisions (mkSnap 1 20 0) = Decision.normal_operation ∧
    make_operational_decisions (mkSnap 1 19 0) = Decision.route_to_charging ∧
    make_operational_decisions (mkSnap 1 100 70) = Decision.normal_operation ∧
    make_operational_decisions (mkSnap 1 100 71) = Decision.reduce_speed := by
  refine ⟨?_, ?_, ?_, ?_⟩ <;> decide

/-- C5: for every nonzero `initial_investment`, `calculate_roi` returns
`((fuel_savings - charging_costs) - maintenance_costs) / initial_investment
* 100`; negative inputs are accepted and propagate through the arithmetic. -/
theorem C5_roi_formula (i m f c : ℚ) (hi : i ≠ 0) :
    calculate_roi i m f c = Except.ok ((f - c - m) / i * 100) := by
  simp only [calculate_roi, if_neg hi]

/-- C5 witness: the spec's concrete example, ROI(500000, 20000, 60000,
10000) = 6 exactly. -/
theorem C5_roi_formula_witness :
    calculate_roi 500000 20000 60000 10000 = Except.ok 6 := by
  rw [C5_roi_formula 500000 20000 60000 10000 (by norm_num)]
  norm_num

/-- C3: each snapshot yields exactly one of the three decisions, in fixed
priority order: battery below 20 forces `route_to_charging` regardless of
speed; otherwise speed above 70 forces `reduce_speed`; otherwise
`normal_operation`. -/
theorem C3_decision_priority (s : TelemetrySnapshot) :
    (s.battery_level < 20 → make_operational_decisions s = Decision.route_to_charging) ∧
    (¬ s.battery_level < 20 → s.speed > 70 →
      make_operational_decisions s = Decision.reduce_speed) ∧
    (¬ s.battery_level < 20 → ¬ s.speed > 70 →
      make_operational_decisions s = Decision.normal_operation) := by
  refine ⟨fun hb => ?_, fun hb hs => ?_, fun hb hs => ?_⟩
  · simp [make_operational_decisions, hb]
  · simp [make_operational_decisions, hb, hs]
  · simp [make_operational_decisions, hb, hs]

/-- C3 witness: low battery wins over speeding (battery 10, speed 90 still
routes to charging); speeding alone reduces speed; otherwise normal. -/
theorem C3_decision_priority_witness :
    make_operational_decisions (mkSnap 1 10 90) = Decision.route_to_charging ∧
    make_operational_decisions (mkSnap 2 50 80) = Decision.reduce_speed ∧
    make_operational_decisions (mkSnap 3 50 30) = Decision.normal_operation :=
  ⟨(C3_decision_priority (mkSnap 1 10 90)).1 (by decide),
   (C3_decision_priority (mkSnap 2 50 80)).2.1 (by decide) (by decide),
   (C3_decision_priority (mkSnap 3 50 30)).2.2 (by decide) (by decide)⟩

/-- C6: for each of the three recognized actions, `remote_control` returns
the templated description built around the vehicle identifier; for any
other action name it returns the sentinel string, never failing (the
function is total by construction). -/
theorem C6_remote_control_dispatch (id : Int) (a : String) :
    (a = "start_charging" →
      remote_control id a = "EV " ++ toString id ++ " started charging.") ∧
    (a = "stop_charging" →
      remote_control id a = "EV " ++ toString id ++ " stopped charging.") ∧
    (a = "reduce_speed" →
      remote_control id a = "EV " ++ toString id ++ " speed reduced.") ∧
    (a ≠ "start_charging" → a ≠ "stop_charging" → a ≠ "reduce_speed" →
      remote_control id a = "Invalid action") := by
  refine ⟨fun h => ?_, fun h => ?_, fun h => ?_, fun h1 h2 h3 => ?_⟩
  · subst h; rfl
  · subst h; rfl
  · subst h; rfl
  · have e1 : (a == "start_charging") = false := beq_eq_false_iff_ne.mpr h1
    have e2 : (a == "stop_charging") = false := beq_eq_false_iff_ne.mpr h2
    have e3 : (a == "reduce_speed") = false := beq_eq_false_iff_ne.mpr h3
    simp [remote_control, List.lookup, e1, e2, e3]

/-- C6 witness: the spec's concrete example, vehicle 101 with
`start_charging` (and the two other recognized actions), and the
unrecognized action `fly` yielding the sentinel. -/
theorem C6_remote_control_dispatch_witness :
    remote_control 101 "start_charging" = "EV 101 started charging." ∧
    remote_control 101 "stop_charging" = "EV 101 stopped charging." ∧
    remote_control 101 "reduce_speed" = "EV 101 speed reduced." ∧
    remote_control 101 "fly" = "Invalid action" :=
  ⟨(C6_remote_control_dispatch 101 "start_charging").1 rfl,
   (C6_remote_control_dispatch 101 "stop_charging").2.1 rfl,
   (C6_remote_control_dispatch 101 "reduce_speed").2.2.1 rfl,
   (C6_remote_control_dispatch 101 "fly").2.2.2
     (by decide) (by decide) (by decide)⟩

/-- C7: on every non-empty batch the aggregated mean battery level is the
arithmetic mean (sum of battery levels divided by batch size). -/
theorem C7_mean_battery (batch : List TelemetrySnapshot) (h : batch ≠ []) :
    (continuous_improvement batch).avg_battery =
      some ((batch.map (fun s => (s.battery_level : ℚ))).sum / (batch.length : ℚ)) := by
  have hl : ¬ batch.length = 0 := by
    simpa [List.length_eq_zero] using h
  simp [continuous_improvement, hl]

/-- The spec's concrete three-vehicle batch with battery levels 10, 30, 50. -/
def batch3 : List TelemetrySnapshot :=
  [mkSnap 1 10 0, mkSnap 2 30 0, mkSnap 3 50 0]

/-- C7 witness: on the batch with battery levels 10, 30, 50 the mean is 30
and the low-battery set is exactly the vehicle with battery 10. -/
theorem C7_mean_battery_witness :
    (continuous_improvement batch3).avg_battery = some 30 ∧
    (continuous_improvement batch3).low_battery_ev = [1] := by
  constructor
  · rw [C7_mean_battery batch3 (by decide)]
    norm_num [batch3, mkSnap]
  · decide

/-- C8: on every non-empty batch the aggregated low-battery list equals the
spec-side definition: the vehicle identifiers of exactly the snapshots with
battery level below 20, in their original relative order. -/
theorem C8_low_battery_set (batch : List TelemetrySnapshot) (_h : batch ≠ []) :
    (continuous_improvement batch).low_battery_ev = spec_low_battery_set batch := by
  clear _h
  induction batch with
  | nil => rfl
  | cons s t ih =>
    by_cases hb : s.battery_level < 20 <;>
      simp_all [continuous_improvement, spec_low_battery_set, List.filter_cons]

/-- C8 witness: the refinement instantiated on the concrete three-vehicle
batch. -/
theorem C8_low_battery_set_witness :
    batch3 ≠ [] ∧
    (continuous_improvement batch3).low_battery_ev = spec_low_battery_set batch3 :=
  ⟨by decide, C8_low_battery_set batch3 (by decide)⟩

/-- C9: on every non-empty batch the suggestion text is present exactly when
the low-battery list is non-empty. -/
theorem C9_suggestion_iff_low_battery (batch : List TelemetrySnapshot) (_h : batch ≠ []) :
    (continuous_improvement batch).suggestion.isSome = true ↔
      (continuous_improvement batch).low_battery_ev ≠ [] := by
  clear _h
  simp only [continuous_improvement]
  rcases Nat.eq_zero_or_pos (batch.filter (fun s => s.battery_level < 20)).length with
    hf | hf
  · simp [hf, List.length_eq_zero.mp hf]
  · simp [hf, List.map_eq_nil_iff, List.length_pos.mp hf]

/-- C9 witness: on the concrete three-vehicle batch the low-battery list is
non-empty and the suggestion is present. -/
theorem C9_suggestion_iff_low_battery_witness :
    batch3 ≠ [] ∧ (continuous_improvement batch3).suggestion.isSome = true :=
  ⟨by decide,
   (C9_suggestion_iff_low_battery batch3 (by decide)).mpr (by decide)⟩

/-- Two snapshots agreeing on battery level and speed but differing in every
other field (identifier, location, temperature, charge status, timestamp). -/
def snapA : TelemetrySnapshot :=
  { ev_id := 101
    battery_level := 50
    location := (34, -118)
    speed := 60
    temperature := 20
    charge_status := ChargeStatus.charging
    timestamp := 1 }

/-- Counterpart to `snapA`: same battery level and speed, all other fields
changed. -/
def snapB : TelemetrySnapshot :=
  { ev_id := 202
    battery_level := 50
    location := (35, -117)
    speed := 60
    temperature := 25
    charge_status := ChargeStatus.discharging
    timestamp := 2 }

/-- C10: the decision depends only on battery level and speed; snapshots
agreeing on those two fields receive the same decision whatever their other
fields are. -/
theorem C10_decision_noninterference (s1 s2 : TelemetrySnapshot)
    (hb : s1.battery_level = s2.battery_level) (hs : s1.speed = s2.speed) :
    make_operational_decisions s1 = make_operational_decisions s2 := by
  simp only [make_operational_decisions, hb, hs]

/-- C10 witness: `snapA` and `snapB` differ in identifier, location,
temperature, charge status and timestamp, yet receive the same decision. -/
theorem C10_decision_noninterference_witness :
    snapA.ev_id ≠ snapB.ev_id ∧
    snapA.battery_level = snapB.battery_level ∧
    snapA.speed = snapB.speed ∧
    make_operational_decisions snapA = make_operational_decisions snapB :=
  ⟨by decide, rfl, rfl, C10_decision_noninterference snapA snapB rfl rfl⟩

end EVFleet
